import Mathlib

/-!
Verification of the SSE stream server (`src/pages/api/hello.ts`) and the
reconnecting SSE client (`src/components/HelloWorld.tsx`) of the
edge-assistant repository.

Server side: the API handler rejects non-GET requests with a 405, and for a
GET request writes an initial data frame, then runs two independent
`setInterval` timers — a periodic data frame every 5000ms and a heartbeat
comment frame every 30000ms.  Termination signals (`req 'close'`,
`req 'end'`, `res 'error'`, or a throwing `res.write` inside a timer
callback) cancel timers exactly as the registered handlers do in the source.

The embedding is a millisecond-step machine: `SConn` carries the virtual
clock, the two timer handles (active flags plus next fire instants, as
`setInterval` machinery), the health of the write sink, and the list of
frames written so far.  Ghost counters `intervalCancels`/`hbCancels` count
the *effective* cancellations (a `clearInterval` of an already-cancelled
timer is a no-op and does not bump the counter), so idempotence of cleanup
is expressible.  Timestamps are modelled as natural-number instants
(`Date.toISOString` is injective on instants).
-/

set_option maxRecDepth 4000

namespace EdgeAssistant

/-- A frame written to the SSE sink: either a data frame
`data: {"message": m, "timestamp": ts}\n\n` or the heartbeat comment
`: heartbeat\n\n`. -/
inductive Frame where
  | data (message : String) (timestamp : Nat)
  | heartbeat
deriving DecidableEq, Repr

/-- Server-side per-connection state (the closure state of `handler` in
`src/pages/api/hello.ts` after the stream is established). -/
structure SConn where
  /-- instant at which the connection was established -/
  t0 : Nat
  /-- milliseconds elapsed since establishment -/
  now : Nat
  /-- whether `res.write` currently succeeds (false once the sink is broken) -/
  sinkOk : Bool
  /-- the periodic-data `interval` timer is armed -/
  dataActive : Bool
  /-- the `heartbeat` timer is armed -/
  hbActive : Bool
  /-- next fire instant (relative) of the data timer -/
  nextData : Nat
  /-- next fire instant (relative) of the heartbeat timer -/
  nextHb : Nat
  /-- frames written to the sink, in order -/
  writes : List Frame
  /-- ghost: number of effective cancellations of the data timer -/
  intervalCancels : Nat
  /-- ghost: number of effective cancellations of the heartbeat timer -/
  hbCancels : Nat
deriving DecidableEq, Repr

/-- `clearInterval(interval)`: disarms the data timer; a no-op when the timer
is already cancelled. -/
def clearI (s : SConn) : SConn :=
  if s.dataActive then
    { s with dataActive := false, intervalCancels := s.intervalCancels + 1 }
  else s

/-- `clearInterval(heartbeat)`: disarms the heartbeat timer; a no-op when the
timer is already cancelled. -/
def clearH (s : SConn) : SConn :=
  if s.hbActive then
    { s with hbActive := false, hbCancels := s.hbCancels + 1 }
  else s

/-- Body of the periodic-data `setInterval` callback (hello.ts lines 38-52):
try to write a fresh `Hello World` message stamped with the current instant;
when the write throws, clear the `interval` timer (and only it). -/
def dataCb (s : SConn) : SConn :=
  if s.sinkOk then
    { s with writes := s.writes ++ [Frame.data "Hello World" (s.t0 + s.now)] }
  else
    clearI s

/-- Body of the heartbeat `setInterval` callback (hello.ts lines 72-80):
try to write `: heartbeat\n\n`; when the write throws, clear the `heartbeat`
timer and then the `interval` timer. -/
def hbCb (s : SConn) : SConn :=
  if s.sinkOk then
    { s with writes := s.writes ++ [Frame.heartbeat] }
  else
    clearI (clearH s)

/-- Events a live connection can experience: one millisecond of virtual time,
the three transport termination signals whose handlers the source registers,
and the sink breaking (after which `res.write` throws). -/
inductive SEv where
  | tick
  | close
  | reqEnd
  | resError
  | sinkFail
deriving DecidableEq, Repr

/-- The `setInterval(…, 5000)` machinery: when the data timer is armed and
due at the current instant, re-arm it 5000ms later and run its callback. -/
def tickData (s : SConn) : SConn :=
  if s.dataActive && (s.now == s.nextData) then
    dataCb { s with nextData := s.now + 5000 }
  else s

/-- The `setInterval(…, 30000)` machinery: when the heartbeat timer is armed
and due at the current instant, re-arm it 30000ms later and run its
callback. -/
def tickHb (s : SConn) : SConn :=
  if s.hbActive && (s.now == s.nextHb) then
    hbCb { s with nextHb := s.now + 30000 }
  else s

/-- One step of the connection.  A `tick` advances the clock 1ms and fires
whichever timers are due (data first — it was registered first).  The signal
handlers are exactly those registered in the source: `req.on('close')` clears
the interval and (second registration) the heartbeat; `req.on('end')` and
`res.on('error')` clear only the interval; `sinkFail` just breaks the sink. -/
def stepS (e : SEv) (s : SConn) : SConn :=
  match e with
  | .tick => tickHb (tickData { s with now := s.now + 1 })
  | .close => clearH (clearI s)
  | .reqEnd => clearI s
  | .resError => clearI s
  | .sinkFail => { s with sinkOk := false }

/-- Run a sequence of events. -/
def runS (evs : List SEv) (s : SConn) : SConn :=
  match evs with
  | [] => s
  | e :: rest => runS rest (stepS e s)

/-- Advance the virtual clock by `n` milliseconds. -/
def advanceS (n : Nat) (s : SConn) : SConn :=
  runS (List.replicate n SEv.tick) s

/-- The connection state right after `handler` accepts a GET request at
instant `t0`: SSE headers written, the initial `Hello World - Connected!`
frame already written, both timers armed with their first fires due at
+5000ms and +30000ms. -/
def initConn (t0 : Nat) : SConn :=
  { t0 := t0
    now := 0
    sinkOk := true
    dataActive := true
    hbActive := true
    nextData := 5000
    nextHb := 30000
    writes := [Frame.data "Hello World - Connected!" t0]
    intervalCancels := 0
    hbCancels := 0 }

/-- Result of the API handler: either a rejection response (status, `Allow`
header, body) with no stream and no timers, or an established streaming
connection. -/
inductive HandlerResult where
  | rejected (status : Nat) (allow : List String) (body : String)
  | established (conn : SConn)
deriving DecidableEq, Repr

/-- The API handler (hello.ts lines 8-86): non-GET methods get
`405` / `Allow: GET` / `Method M Not Allowed` and nothing else happens;
a GET establishes the stream. -/
def handler (method : String) (t0 : Nat) : HandlerResult :=
  if method != "GET" then
    HandlerResult.rejected 405 ["GET"] ("Method " ++ method ++ " Not Allowed")
  else
    HandlerResult.established (initConn t0)

/-- Periodic data frames among a connection's writes: frames whose message is
the periodic `Hello World` (the initial frame says `Hello World - Connected!`
and heartbeats carry no message). -/
def isPeriodicData : Frame → Bool
  | .data m _ => m == "Hello World"
  | .heartbeat => false

/-- The periodic data frames written so far, in order. -/
def periodicFrames (s : SConn) : List Frame :=
  s.writes.filter isPeriodicData

/-! ### Basic stepping lemmas for the server machine -/

theorem runS_append (evs evs' : List SEv) (s : SConn) :
    runS (evs ++ evs') s = runS evs' (runS evs s) := by
  induction evs generalizing s with
  | nil => rfl
  | cons e rest ih => simp [runS, ih]

theorem advanceS_add (m n : Nat) (s : SConn) :
    advanceS (m + n) s = advanceS n (advanceS m s) := by
  unfold advanceS
  rw [List.replicate_add, runS_append]

theorem advanceS_one (s : SConn) : advanceS 1 s = stepS SEv.tick s := rfl

theorem clearI_writes (s : SConn) : (clearI s).writes = s.writes := by
  unfold clearI; split <;> rfl

theorem clearH_writes (s : SConn) : (clearH s).writes = s.writes := by
  unfold clearH; split <;> rfl

theorem clearI_dataActive (s : SConn) : (clearI s).dataActive = false := by
  unfold clearI; split <;> simp_all

theorem clearI_hbActive (s : SConn) : (clearI s).hbActive = s.hbActive := by
  unfold clearI; split <;> rfl

theorem clearH_hbActive (s : SConn) : (clearH s).hbActive = false := by
  unfold clearH; split <;> simp_all

theorem clearH_dataActive (s : SConn) : (clearH s).dataActive = s.dataActive := by
  unfold clearH; split <;> rfl

theorem dataCb_hbActive (s : SConn) : (dataCb s).hbActive = s.hbActive := by
  unfold dataCb; split
  · rfl
  · exact clearI_hbActive s

theorem hbCb_dataActive_mono (s : SConn) (h : s.dataActive = false) :
    (hbCb s).dataActive = false := by
  unfold hbCb; split
  · simpa using h
  · exact clearI_dataActive _

theorem hbCb_hbActive_mono (s : SConn) (h : s.hbActive = false) :
    (hbCb s).hbActive = false := by
  unfold hbCb; split
  · simpa using h
  · rw [clearI_hbActive, clearH_hbActive]

/-- The data timer does not fire at an instant other than its next due one
(in particular when it is cancelled). -/
theorem tickData_skip (s : SConn)
    (h : s.dataActive = true → s.now ≠ s.nextData) : tickData s = s := by
  unfold tickData
  cases hda : s.dataActive with
  | false => simp
  | true => simp [h hda]

/-- The heartbeat timer does not fire at an instant other than its next due
one (in particular when it is cancelled). -/
theorem tickHb_skip (s : SConn)
    (h : s.hbActive = true → s.now ≠ s.nextHb) : tickHb s = s := by
  unfold tickHb
  cases hhb : s.hbActive with
  | false => simp
  | true => simp [h hhb]

theorem tickData_hbActive (s : SConn) : (tickData s).hbActive = s.hbActive := by
  unfold tickData; split
  · exact dataCb_hbActive _
  · rfl

theorem tickData_dataActive_mono (s : SConn) (h : s.dataActive = false) :
    (tickData s).dataActive = false := by
  rw [tickData_skip s (by simp [h])]; exact h

theorem tickHb_dataActive_mono (s : SConn) (h : s.dataActive = false) :
    (tickHb s).dataActive = false := by
  unfold tickHb; split
  · exact hbCb_dataActive_mono _ (by simpa using h)
  · exact h

theorem tickHb_hbActive_mono (s : SConn) (h : s.hbActive = false) :
    (tickHb s).hbActive = false := by
  rw [tickHb_skip s (by simp [h])]; exact h

/-- A tick strictly before both timers' next fire instants only advances the
clock. -/
theorem stepS_tick_skip (s : SConn)
    (hd : s.dataActive = true → s.now + 1 < s.nextData)
    (hh : s.hbActive = true → s.now + 1 < s.nextHb) :
    stepS SEv.tick s = { s with now := s.now + 1 } := by
  have h1 : tickData { s with now := s.now + 1 } = { s with now := s.now + 1 } := by
    apply tickData_skip
    intro h
    have := hd (by simpa using h)
    simp; omega
  have h2 : tickHb { s with now := s.now + 1 } = { s with now := s.now + 1 } := by
    apply tickHb_skip
    intro h
    have := hh (by simpa using h)
    simp; omega
  simp [stepS, h1, h2]

/-- Advancing by `n` milliseconds that all fall strictly before both timers'
next fire instants only advances the clock. -/
theorem advanceS_skip (n : Nat) (s : SConn)
    (hd : s.dataActive = true → s.now + n < s.nextData)
    (hh : s.hbActive = true → s.now + n < s.nextHb) :
    advanceS n s = { s with now := s.now + n } := by
  induction n generalizing s with
  | zero => rfl
  | succ m ih =>
    have hstep : stepS SEv.tick s = { s with now := s.now + 1 } := by
      apply stepS_tick_skip
      · intro hda; exact Nat.lt_of_le_of_lt (by omega) (hd hda)
      · intro hhb; exact Nat.lt_of_le_of_lt (by omega) (hh hhb)
    have : advanceS (m + 1) s = advanceS m (stepS SEv.tick s) := by
      have := advanceS_add 1 m s
      simpa [advanceS_one, Nat.add_comm] using this
    rw [this, hstep]
    have := ih { s with now := s.now + 1 }
      (by intro hda; simp only at hda ⊢; have := hd hda; omega)
      (by intro hhb; simp only at hhb ⊢; have := hh hhb; omega)
    simpa [Nat.add_assoc, Nat.add_comm 1 m] using this

/-- Once both timers are cancelled, a step never writes a frame and never
re-arms a timer. -/
theorem stepS_quiet (e : SEv) (s : SConn)
    (hd : s.dataActive = false) (hh : s.hbActive = false) :
    (stepS e s).writes = s.writes ∧ (stepS e s).dataActive = false ∧
      (stepS e s).hbActive = false := by
  cases e with
  | tick =>
    have h1 : tickData { s with now := s.now + 1 } = { s with now := s.now + 1 } :=
      tickData_skip _ (by simp [hd])
    have h2 : tickHb { s with now := s.now + 1 } = { s with now := s.now + 1 } :=
      tickHb_skip _ (by simp [hh])
    simp only [stepS]
    rw [h1, h2]
    exact ⟨rfl, hd, hh⟩
  | close => simp [stepS, clearI, clearH, hd, hh]
  | reqEnd => simp [stepS, clearI, hd, hh]
  | resError => simp [stepS, clearI, hd, hh]
  | sinkFail => simp [stepS, hd, hh]

/-- Once both timers are cancelled, no event sequence of any length writes
any further frame. -/
theorem runS_quiet (evs : List SEv) (s : SConn)
    (hd : s.dataActive = false) (hh : s.hbActive = false) :
    (runS evs s).writes = s.writes := by
  induction evs generalizing s with
  | nil => rfl
  | cons e rest ih =>
    obtain ⟨hw, hd', hh'⟩ := stepS_quiet e s hd hh
    calc (runS rest (stepS e s)).writes
        = (stepS e s).writes := ih (stepS e s) hd' hh'
      _ = s.writes := hw

/-- Every step leaves the previous writes as a prefix: frames are only ever
appended to the sink. -/
theorem dataCb_writes_extend (s : SConn) :
    ∃ t, (dataCb s).writes = s.writes ++ t := by
  unfold dataCb; split
  · exact ⟨[Frame.data "Hello World" (s.t0 + s.now)], rfl⟩
  · exact ⟨[], by simp [clearI_writes]⟩

theorem hbCb_writes_extend (s : SConn) :
    ∃ t, (hbCb s).writes = s.writes ++ t := by
  unfold hbCb; split
  · exact ⟨[Frame.heartbeat], rfl⟩
  · exact ⟨[], by simp [clearI_writes, clearH_writes]⟩

theorem tickData_writes_extend (s : SConn) :
    ∃ t, (tickData s).writes = s.writes ++ t := by
  unfold tickData; split
  · simpa using dataCb_writes_extend { s with nextData := s.now + 5000 }
  · exact ⟨[], by simp⟩

theorem tickHb_writes_extend (s : SConn) :
    ∃ t, (tickHb s).writes = s.writes ++ t := by
  unfold tickHb; split
  · simpa using hbCb_writes_extend { s with nextHb := s.now + 30000 }
  · exact ⟨[], by simp⟩

theorem stepS_writes_extend (e : SEv) (s : SConn) :
    ∃ t, (stepS e s).writes = s.writes ++ t := by
  cases e with
  | tick =>
    obtain ⟨t1, h1⟩ := tickData_writes_extend { s with now := s.now + 1 }
    obtain ⟨t2, h2⟩ := tickHb_writes_extend (tickData { s with now := s.now + 1 })
    refine ⟨t1 ++ t2, ?_⟩
    show (tickHb (tickData { s with now := s.now + 1 })).writes = _
    rw [h2, h1]
    simp [List.append_assoc]
  | close => exact ⟨[], by simp [stepS, clearI_writes, clearH_writes]⟩
  | reqEnd => exact ⟨[], by simp [stepS, clearI_writes]⟩
  | resError => exact ⟨[], by simp [stepS, clearI_writes]⟩
  | sinkFail => exact ⟨[], by simp [stepS]⟩

/-- Over any event sequence, the old writes stay a prefix of the new ones. -/
theorem runS_writes_extend (evs : List SEv) (s : SConn) :
    ∃ t, (runS evs s).writes = s.writes ++ t := by
  induction evs generalizing s with
  | nil => exact ⟨[], by simp [runS]⟩
  | cons e rest ih =>
    obtain ⟨t1, h1⟩ := stepS_writes_extend e s
    obtain ⟨t2, h2⟩ := ih (stepS e s)
    exact ⟨t1 ++ t2, by rw [runS, h2, h1, List.append_assoc]⟩

/-- A step never re-arms the data timer. -/
theorem stepS_dataActive_mono (e : SEv) (s : SConn)
    (h : s.dataActive = false) : (stepS e s).dataActive = false := by
  cases e with
  | tick =>
    show (tickHb (tickData { s with now := s.now + 1 })).dataActive = false
    exact tickHb_dataActive_mono _ (tickData_dataActive_mono _ (by simpa using h))
  | close => show (clearH (clearI s)).dataActive = false
             rw [clearH_dataActive, clearI_dataActive]
  | reqEnd => exact clearI_dataActive s
  | resError => exact clearI_dataActive s
  | sinkFail => simpa using h

/-- A step never re-arms the heartbeat timer. -/
theorem stepS_hbActive_mono (e : SEv) (s : SConn)
    (h : s.hbActive = false) : (stepS e s).hbActive = false := by
  cases e with
  | tick =>
    show (tickHb (tickData { s with now := s.now + 1 })).hbActive = false
    apply tickHb_hbActive_mono
    rw [tickData_hbActive]
    simpa using h
  | close => exact clearH_hbActive _
  | reqEnd => show (clearI s).hbActive = false
              rw [clearI_hbActive]; exact h
  | resError => show (clearI s).hbActive = false
                rw [clearI_hbActive]; exact h
  | sinkFail => simpa using h

/-- No event sequence re-arms a cancelled data timer. -/
theorem runS_dataActive_mono (evs : List SEv) (s : SConn)
    (h : s.dataActive = false) : (runS evs s).dataActive = false := by
  induction evs generalizing s with
  | nil => exact h
  | cons e rest ih => exact ih _ (stepS_dataActive_mono e s h)

/-- No event sequence re-arms a cancelled heartbeat timer. -/
theorem runS_hbActive_mono (evs : List SEv) (s : SConn)
    (h : s.hbActive = false) : (runS evs s).hbActive = false := by
  induction evs generalizing s with
  | nil => exact h
  | cons e rest ih => exact ih _ (stepS_hbActive_mono e s h)

/-! ### Cancellation accounting

`iBudget`/`hBudget` add the armed flag to the effective-cancellation
counter; both are invariant under every event, which is exactly the
statement that an armed timer can be effectively cancelled once and a
cancelled timer never again. -/

def iBudget (s : SConn) : Nat :=
  s.intervalCancels + (if s.dataActive then 1 else 0)

def hBudget (s : SConn) : Nat :=
  s.hbCancels + (if s.hbActive then 1 else 0)

theorem clearI_iBudget (s : SConn) : iBudget (clearI s) = iBudget s := by
  unfold clearI iBudget; split <;> simp_all

theorem clearI_hBudget (s : SConn) : hBudget (clearI s) = hBudget s := by
  unfold clearI; split <;> rfl

theorem clearH_iBudget (s : SConn) : iBudget (clearH s) = iBudget s := by
  unfold clearH; split <;> rfl

theorem clearH_hBudget (s : SConn) : hBudget (clearH s) = hBudget s := by
  unfold clearH hBudget; split <;> simp_all

theorem dataCb_iBudget (s : SConn) : iBudget (dataCb s) = iBudget s := by
  unfold dataCb; split
  · rfl
  · exact clearI_iBudget s

theorem dataCb_hBudget (s : SConn) : hBudget (dataCb s) = hBudget s := by
  unfold dataCb; split
  · rfl
  · exact clearI_hBudget s

theorem hbCb_iBudget (s : SConn) : iBudget (hbCb s) = iBudget s := by
  unfold hbCb; split
  · rfl
  · rw [clearI_iBudget, clearH_iBudget]

theorem hbCb_hBudget (s : SConn) : hBudget (hbCb s) = hBudget s := by
  unfold hbCb; split
  · rfl
  · rw [clearI_hBudget, clearH_hBudget]

theorem tickData_iBudget (s : SConn) : iBudget (tickData s) = iBudget s := by
  unfold tickData; split
  · rw [dataCb_iBudget]; rfl
  · rfl

theorem tickData_hBudget (s : SConn) : hBudget (tickData s) = hBudget s := by
  unfold tickData; split
  · rw [dataCb_hBudget]; rfl
  · rfl

theorem tickHb_iBudget (s : SConn) : iBudget (tickHb s) = iBudget s := by
  unfold tickHb; split
  · rw [hbCb_iBudget]; rfl
  · rfl

theorem tickHb_hBudget (s : SConn) : hBudget (tickHb s) = hBudget s := by
  unfold tickHb; split
  · rw [hbCb_hBudget]; rfl
  · rfl

theorem stepS_iBudget (e : SEv) (s : SConn) : iBudget (stepS e s) = iBudget s := by
  cases e with
  | tick =>
    show iBudget (tickHb (tickData { s with now := s.now + 1 })) = iBudget s
    rw [tickHb_iBudget, tickData_iBudget]; rfl
  | close => show iBudget (clearH (clearI s)) = iBudget s
             rw [clearH_iBudget, clearI_iBudget]
  | reqEnd => exact clearI_iBudget s
  | resError => exact clearI_iBudget s
  | sinkFail => rfl

theorem stepS_hBudget (e : SEv) (s : SConn) : hBudget (stepS e s) = hBudget s := by
  cases e with
  | tick =>
    show hBudget (tickHb (tickData { s with now := s.now + 1 })) = hBudget s
    rw [tickHb_hBudget, tickData_hBudget]; rfl
  | close => show hBudget (clearH (clearI s)) = hBudget s
             rw [clearH_hBudget, clearI_hBudget]
  | reqEnd => exact clearI_hBudget s
  | resError => exact clearI_hBudget s
  | sinkFail => rfl

theorem runS_iBudget (evs : List SEv) (s : SConn) :
    iBudget (runS evs s) = iBudget s := by
  induction evs generalizing s with
  | nil => rfl
  | cons e rest ih => rw [runS, ih, stepS_iBudget]

theorem runS_hBudget (evs : List SEv) (s : SConn) :
    hBudget (runS evs s) = hBudget s := by
  induction evs generalizing s with
  | nil => rfl
  | cons e rest ih => rw [runS, ih, stepS_hBudget]

theorem clearI_of_inactive (s : SConn) (h : s.dataActive = false) :
    clearI s = s := by
  unfold clearI; simp [h]

theorem clearH_of_inactive (s : SConn) (h : s.hbActive = false) :
    clearH s = s := by
  unfold clearH; simp [h]

/-! ### Claim theorems: server side -/

/-- C1 (counterexample): the claim "after the first termination signal no
further frames of any kind are written" is false on the code.  The
`req.on('end')` handler clears only the periodic-data interval, so after an
end-of-stream signal the heartbeat timer stays armed: 30000ms later a
heartbeat frame is still written to the sink. -/
theorem c1_counterexample :
    (stepS SEv.reqEnd (initConn 0)).writes
        = [Frame.data "Hello World - Connected!" 0] ∧
    (advanceS 30000 (stepS SEv.reqEnd (initConn 0))).writes
        = [Frame.data "Hello World - Connected!" 0, Frame.heartbeat] := by
  constructor
  · rfl
  · rw [show (30000 : Nat) = 29999 + 1 from rfl, advanceS_add,
      advanceS_skip 29999 _ (by decide) (by decide)]
    rfl

/-- C1 (amended): after a client `close` signal — whose two registered
handlers cancel both timers — no further frames of any kind (data or
heartbeat) are written to the sink, regardless of how much further time
elapses or which further signals arrive.  (End-of-stream, a response error,
or a data-timer write failure cancel only the data timer.) -/
theorem c1_amended_no_frames_after_close (s : SConn) (evs : List SEv) :
    (runS evs (stepS SEv.close s)).writes = (stepS SEv.close s).writes := by
  apply runS_quiet
  · show (clearH (clearI s)).dataActive = false
    rw [clearH_dataActive, clearI_dataActive]
  · exact clearH_hbActive _

/-- C2: cleanup is idempotent.  Over any trace of events each timer is
effectively cancelled at most once; over any trace containing a `close`
signal each timer is effectively cancelled exactly once; and re-delivering
any of the three cleanup signals is a no-op on the state (so cancelling an
already-cancelled timer never does anything, and every step is a total
function — no error is ever raised). -/
theorem c2_cleanup_idempotent (t0 : Nat) (pre post : List SEv) :
    ((runS (pre ++ SEv.close :: post) (initConn t0)).intervalCancels = 1 ∧
      (runS (pre ++ SEv.close :: post) (initConn t0)).hbCancels = 1) ∧
    ((runS pre (initConn t0)).intervalCancels ≤ 1 ∧
      (runS pre (initConn t0)).hbCancels ≤ 1) ∧
    (∀ s : SConn,
      stepS SEv.close (stepS SEv.close s) = stepS SEv.close s ∧
      stepS SEv.reqEnd (stepS SEv.reqEnd s) = stepS SEv.reqEnd s ∧
      stepS SEv.resError (stepS SEv.resError s) = stepS SEv.resError s) := by
  refine ⟨?_, ?_, ?_⟩
  · rw [runS_append]
    have hcl : runS (SEv.close :: post) (runS pre (initConn t0)) =
        runS post (stepS SEv.close (runS pre (initConn t0))) := rfl
    set u := stepS SEv.close (runS pre (initConn t0)) with hu
    have hdu : u.dataActive = false := by
      rw [hu]
      show (clearH (clearI _)).dataActive = false
      rw [clearH_dataActive, clearI_dataActive]
    have hhu : u.hbActive = false := by
      rw [hu]; exact clearH_hbActive _
    have hda : (runS post u).dataActive = false := runS_dataActive_mono post u hdu
    have hha : (runS post u).hbActive = false := runS_hbActive_mono post u hhu
    have hib : iBudget (runS post u) = 1 := by
      rw [runS_iBudget, hu, stepS_iBudget, runS_iBudget]
      rfl
    have hhb : hBudget (runS post u) = 1 := by
      rw [runS_hBudget, hu, stepS_hBudget, runS_hBudget]
      rfl
    rw [hcl]
    constructor
    · have := hib
      unfold iBudget at this
      rw [hda] at this
      simpa using this
    · have := hhb
      unfold hBudget at this
      rw [hha] at this
      simpa using this
  · have hib : iBudget (runS pre (initConn t0)) = 1 := by
      rw [runS_iBudget]; rfl
    have hhb : hBudget (runS pre (initConn t0)) = 1 := by
      rw [runS_hBudget]; rfl
    unfold iBudget at hib
    unfold hBudget at hhb
    constructor <;> [skip; skip] <;> omega
  · intro s
    refine ⟨?_, ?_, ?_⟩
    · show clearH (clearI (clearH (clearI s))) = clearH (clearI s)
      rw [clearI_of_inactive _ (by rw [clearH_dataActive, clearI_dataActive]),
        clearH_of_inactive _ (clearH_hbActive _)]
    · show clearI (clearI s) = clearI s
      exact clearI_of_inactive _ (clearI_dataActive s)
    · show clearI (clearI s) = clearI s
      exact clearI_of_inactive _ (clearI_dataActive s)

/-- C7: for every GET request the handler establishes the stream with the
initial `Hello World - Connected!` data frame, stamped with the connection
instant, already written — and whatever timer activity or signals follow,
that frame stays the first frame ever written to the sink. -/
theorem c7_initial_frame_first (t0 : Nat) (evs : List SEv) :
    handler "GET" t0 = HandlerResult.established (initConn t0) ∧
      (runS evs (initConn t0)).writes.head? =
        some (Frame.data "Hello World - Connected!" t0) := by
  constructor
  · rfl
  · obtain ⟨t, ht⟩ := runS_writes_extend evs (initConn t0)
    rw [ht]
    rfl

/-- C9: every request whose method is not GET is answered with status 405,
header `Allow: GET` and body `Method M Not Allowed`, and no stream or timers
are created (the handler result carries no connection). -/
theorem c9_non_get_rejected (method : String) (t0 : Nat) (h : method ≠ "GET") :
    handler method t0 =
      HandlerResult.rejected 405 ["GET"] ("Method " ++ method ++ " Not Allowed") := by
  unfold handler
  simp [h]

theorem c9_witness :
    ("POST" : String) ≠ "GET" ∧
      handler "POST" 0 =
        HandlerResult.rejected 405 ["GET"] "Method POST Not Allowed" :=
  ⟨by decide, c9_non_get_rejected "POST" 0 (by decide)⟩

/-- C10: when the sink is broken, the heartbeat callback's write throws and
its catch block cancels both the heartbeat timer and the periodic-data
interval; from then on no frame of any kind is ever written again. -/
theorem c10_heartbeat_failure_cancels_both (s : SConn) (h : s.sinkOk = false) :
    (hbCb s).dataActive = false ∧ (hbCb s).hbActive = false ∧
      ∀ evs, (runS evs (hbCb s)).writes = s.writes := by
  have hcb : hbCb s = clearI (clearH s) := by unfold hbCb; simp [h]
  refine ⟨?_, ?_, ?_⟩
  · rw [hcb]; exact clearI_dataActive _
  · rw [hcb, clearI_hbActive]; exact clearH_hbActive _
  · intro evs
    rw [hcb]
    rw [runS_quiet evs _ (clearI_dataActive _)
      (by rw [clearI_hbActive]; exact clearH_hbActive _)]
    rw [clearI_writes, clearH_writes]

theorem c10_witness :
    ({ initConn 0 with sinkOk := false } : SConn).sinkOk = false ∧
      (hbCb { initConn 0 with sinkOk := false }).dataActive = false ∧
      (hbCb { initConn 0 with sinkOk := false }).hbActive = false ∧
      (runS [SEv.tick] (hbCb { initConn 0 with sinkOk := false })).writes =
        ({ initConn 0 with sinkOk := false } : SConn).writes := by
  refine ⟨rfl, ?_, ?_, ?_⟩
  · exact (c10_heartbeat_failure_cancels_both _ rfl).1
  · exact (c10_heartbeat_failure_cancels_both _ rfl).2.1
  · exact (c10_heartbeat_failure_cancels_both _ rfl).2.2 [SEv.tick]

/-- C8: under the virtual clock, advancing a fresh connection by exactly
5000ms yields exactly one periodic data frame, stamped `T0+5000`; advancing
by 15000ms yields exactly three, stamped `T0+5000`, `T0+10000`, `T0+15000`. -/
theorem c8_periodic_cadence (t0 : Nat) :
    periodicFrames (advanceS 5000 (initConn t0)) =
      [Frame.data "Hello World" (t0 + 5000)] ∧
    periodicFrames (advanceS 15000 (initConn t0)) =
      [Frame.data "Hello World" (t0 + 5000),
        Frame.data "Hello World" (t0 + 10000),
        Frame.data "Hello World" (t0 + 15000)] := by
  have g1 : advanceS 5000 (initConn t0) =
      (⟨t0, 5000, true, true, true, 10000, 30000,
        [Frame.data "Hello World - Connected!" t0,
          Frame.data "Hello World" (t0 + 5000)], 0, 0⟩ : SConn) := by
    rw [show (5000 : Nat) = 4999 + 1 from rfl, advanceS_add,
      advanceS_skip 4999 _ (by intro _; norm_num [initConn])
        (by intro _; norm_num [initConn])]
    norm_num [initConn]
    rfl
  have g2 : advanceS 5000 (⟨t0, 5000, true, true, true, 10000, 30000,
      [Frame.data "Hello World - Connected!" t0,
        Frame.data "Hello World" (t0 + 5000)], 0, 0⟩ : SConn) =
      (⟨t0, 10000, true, true, true, 15000, 30000,
        [Frame.data "Hello World - Connected!" t0,
          Frame.data "Hello World" (t0 + 5000),
          Frame.data "Hello World" (t0 + 10000)], 0, 0⟩ : SConn) := by
    rw [show (5000 : Nat) = 4999 + 1 from rfl, advanceS_add,
      advanceS_skip 4999 _ (by intro _; norm_num [initConn])
        (by intro _; norm_num [initConn])]
    norm_num [initConn]
    rfl
  have g3 : advanceS 5000 (⟨t0, 10000, true, true, true, 15000, 30000,
      [Frame.data "Hello World - Connected!" t0,
        Frame.data "Hello World" (t0 + 5000),
        Frame.data "Hello World" (t0 + 10000)], 0, 0⟩ : SConn) =
      (⟨t0, 15000, true, true, true, 20000, 30000,
        [Frame.data "Hello World - Connected!" t0,
          Frame.data "Hello World" (t0 + 5000),
          Frame.data "Hello World" (t0 + 10000),
          Frame.data "Hello World" (t0 + 15000)], 0, 0⟩ : SConn) := by
    rw [show (5000 : Nat) = 4999 + 1 from rfl, advanceS_add,
      advanceS_skip 4999 _ (by intro _; norm_num [initConn])
        (by intro _; norm_num [initConn])]
    norm_num [initConn]
    rfl
  constructor
  · rw [g1]; rfl
  · rw [show (15000 : Nat) = 5000 + (5000 + 5000) from rfl, advanceS_add,
      advanceS_add, g1, g2, g3]
    rfl

/-! ## Client side: the reconnecting SSE consumer

Embedding of `src/components/HelloWorld.tsx`.  React state hooks become
record fields updated immediately; the `eventSourceRef`/`reconnectTimeoutRef`
refs become `Option Nat` resource ids drawn from a fresh-id counter; the
actually-live external resources (open `EventSource` streams, pending
`setTimeout` reconnect timers) are tracked as lists of ids so that "at most
one stream/timer is live" is a provable statement rather than a modelling
artifact.  `EventSource` events (`onopen`/`onmessage`/`onerror`) are
delivered only while the stream they are attached to is still open — a
closed `EventSource` dispatches nothing.  `JSON.parse` is a platform
primitive; its outcome is the `Option HelloWorldData` argument of
`onMessage`.  `new EventSource('/api/hello')` cannot throw for this fixed
well-formed URL, so `connect` always reaches the success path of its
`try` block. -/

/-- Client connection status, `ConnectionStatus` in HelloWorld.tsx. -/
inductive ConnectionStatus where
  | connecting
  | connected
  | disconnected
  | reconnecting
deriving DecidableEq, Repr

/-- `HelloWorldData` as parsed by the client; timestamps as instants. -/
structure HelloWorldData where
  message : String
  timestamp : Nat
deriving DecidableEq, Repr

/-- `maxRetries = 10` (HelloWorld.tsx line 19). -/
def maxRetries : Nat := 10

/-- `baseDelay = 1000` ms (line 20). -/
def baseDelay : ℚ := 1000

/-- `maxDelay = 30000` ms (line 21). -/
def maxDelay : ℚ := 30000

/-- `getRetryDelay` (lines 24-28):
`min(baseDelay * 2^retryAttempt, maxDelay) + Math.random() * 1000`, with the
`Math.random()` draw (a value in `[0,1)`) passed in explicitly. -/
def getRetryDelay (retryAttempt : Nat) (rand : ℚ) : ℚ :=
  min (baseDelay * 2 ^ retryAttempt) maxDelay + rand * 1000

/-- The client session state: the five `useState` hooks, the two refs, the
fresh-resource counter, and the lists of actually-live streams/timers. -/
structure ClientState where
  helloData : Option HelloWorldData
  error : Option String
  connectionStatus : ConnectionStatus
  retryCount : Nat
  lastUpdateTime : Option Nat
  /-- fresh id for the next created stream or timer -/
  nextId : Nat
  /-- ids of `EventSource` streams that are currently open -/
  openStreams : List Nat
  /-- `eventSourceRef.current` -/
  esRef : Option Nat
  /-- ids of reconnect `setTimeout` timers currently pending -/
  activeTimers : List Nat
  /-- `reconnectTimeoutRef.current` -/
  timerRef : Option Nat
deriving DecidableEq, Repr

/-- `eventSourceRef.current.close()` guarded by the ref check
(HelloWorld.tsx lines 33-35); the ref itself is not nulled. -/
def closeCurrent (s : ClientState) : ClientState :=
  match s.esRef with
  | some i => { s with openStreams := s.openStreams.erase i }
  | none => s

/-- `clearTimeout(reconnectTimeoutRef.current)` guarded by the ref check
(lines 37-39); the ref itself is not nulled. -/
def clearReconnect (s : ClientState) : ClientState :=
  match s.timerRef with
  | some t => { s with activeTimers := s.activeTimers.erase t }
  | none => s

/-- `new EventSource('/api/hello')` plus `eventSourceRef.current = es`
(lines 45-46): a fresh stream id is opened and stored in the ref. -/
def openNewStream (s : ClientState) : ClientState :=
  { s with openStreams := s.nextId :: s.openStreams
           esRef := some s.nextId
           nextId := s.nextId + 1 }

/-- `connect` (lines 31-97): close any existing stream, cancel any pending
reconnect timer, set status to `connecting` and clear the error, then open a
fresh stream. -/
def connect (s : ClientState) : ClientState :=
  openNewStream
    { clearReconnect (closeCurrent s) with
        connectionStatus := ConnectionStatus.connecting
        error := none }

/-- `eventSource.onopen` (lines 48-53). -/
def onOpen (s : ClientState) : ClientState :=
  { s with connectionStatus := ConnectionStatus.connected
           retryCount := 0
           error := none }

/-- `eventSource.onmessage` (lines 55-71): on a successfully parsed payload,
store it, stamp the update instant, set `connected`, clear the error; when
`JSON.parse` throws, only record the parse error. -/
def onMessage (s : ClientState) (parsed : Option HelloWorldData) (now : Nat) :
    ClientState :=
  match parsed with
  | some d =>
    { s with helloData := some d
             lastUpdateTime := some now
             connectionStatus := ConnectionStatus.connected
             error := none }
  | none => { s with error := some "Failed to parse server data" }

/-- The retry branch of `eventSource.onerror` (lines 77-90), run after the
erroring stream was closed: below the retry bound move to `reconnecting` and
schedule a fresh reconnect timer (the ref is overwritten, the old timer is
not cleared here); at the bound move to `disconnected` with the terminal
error. -/
def onErrorChecked (s1 : ClientState) : ClientState :=
  if s1.retryCount < maxRetries then
    { s1 with connectionStatus := ConnectionStatus.reconnecting
              activeTimers := s1.nextId :: s1.activeTimers
              timerRef := some s1.nextId
              nextId := s1.nextId + 1 }
  else
    { s1 with connectionStatus := ConnectionStatus.disconnected
              error := some "Connection failed after 10 attempts" }

/-- `eventSource.onerror` (lines 73-91): `eventSource.close()`, then the
retry/terminal branch. -/
def onError (s : ClientState) : ClientState :=
  onErrorChecked (closeCurrent s)

/-- Events the client session can experience.  Stream events (`opened`,
`message`, `errored`) are delivered by the current `EventSource` and only
while it is still open; `timerFire` is the pending reconnect timeout
elapsing (it increments `retryCount` and calls `connect`, lines 83-86);
`manualReconnect` is the user-facing retry (lines 100-103); `teardown` is
the unmount cleanup (lines 110-117). -/
inductive CEv where
  | opened
  | message (parsed : Option HelloWorldData) (now : Nat)
  | errored
  | timerFire
  | manualReconnect
  | teardown
deriving DecidableEq, Repr

/-- Whether the stream the ref points to is still open. -/
def currentOpen (s : ClientState) : Bool :=
  match s.esRef with
  | some i => s.openStreams.contains i
  | none => false

def stepC (e : CEv) (s : ClientState) : ClientState :=
  match e with
  | .opened => if currentOpen s then onOpen s else s
  | .message p now => if currentOpen s then onMessage s p now else s
  | .errored => if currentOpen s then onError s else s
  | .timerFire =>
    match s.timerRef with
    | some t =>
      if s.activeTimers.contains t then
        connect { s with activeTimers := s.activeTimers.erase t
                         retryCount := s.retryCount + 1 }
      else s
    | none => s
  | .manualReconnect => connect { s with retryCount := 0 }
  | .teardown => clearReconnect (closeCurrent s)

def runC (evs : List CEv) (s : ClientState) : ClientState :=
  match evs with
  | [] => s
  | e :: rest => runC rest (stepC e s)

/-- The initial hook values (lines 11-18). -/
def initialClient : ClientState :=
  { helloData := none
    error := none
    connectionStatus := ConnectionStatus.connecting
    retryCount := 0
    lastUpdateTime := none
    nextId := 0
    openStreams := []
    esRef := none
    activeTimers := []
    timerRef := none }

/-- The session state right after mount: the `useEffect` calls `connect()`
(lines 106-107). -/
def mount : ClientState := connect initialClient

/-! ### Claim theorems: backoff delay and parse failure -/

/-- C3: for every retry attempt index `n` (the `retryCount` value read before
the increment in the scheduled callback) and every `Math.random()` draw in
`[0,1)`, the computed backoff delay lies in
`[min(1000*2^n, 30000), min(1000*2^n, 30000) + 1000)` milliseconds. -/
theorem c3_backoff_delay_bounds (n : Nat) (rand : ℚ)
    (h0 : 0 ≤ rand) (h1 : rand < 1) :
    min ((1000 : ℚ) * 2 ^ n) 30000 ≤ getRetryDelay n rand ∧
      getRetryDelay n rand < min ((1000 : ℚ) * 2 ^ n) 30000 + 1000 := by
  unfold getRetryDelay baseDelay maxDelay
  have hj0 : 0 ≤ rand * 1000 := by positivity
  have hj1 : rand * 1000 < 1000 := by nlinarith
  constructor <;> linarith

theorem c3_witness :
    (0 ≤ (1 / 2 : ℚ)) ∧ ((1 / 2 : ℚ) < 1) ∧
      (min ((1000 : ℚ) * 2 ^ 3) 30000 ≤ getRetryDelay 3 (1 / 2) ∧
        getRetryDelay 3 (1 / 2) < min ((1000 : ℚ) * 2 ^ 3) 30000 + 1000) :=
  ⟨by norm_num, by norm_num,
    c3_backoff_delay_bounds 3 (1 / 2) (by norm_num) (by norm_num)⟩

/-- C5: a frame whose payload fails to parse only records the descriptive
parse error: connection status, retry count, the open streams (the stream is
not closed), the stream ref and the pending timers are all left unchanged —
the malformed payload is not counted as a connection failure. -/
theorem c5_parse_failure_nonfatal (s : ClientState) (now : Nat) :
    (onMessage s none now).connectionStatus = s.connectionStatus ∧
    (onMessage s none now).retryCount = s.retryCount ∧
    (onMessage s none now).openStreams = s.openStreams ∧
    (onMessage s none now).esRef = s.esRef ∧
    (onMessage s none now).activeTimers = s.activeTimers ∧
    (onMessage s none now).helloData = s.helloData ∧
    (onMessage s none now).error = some "Failed to parse server data" :=
  ⟨rfl, rfl, rfl, rfl, rfl, rfl, rfl⟩

/-! ### Resource invariant of the client session -/

/-- The resource invariant: at most one stream is open and it is the one the
ref points to; at most one reconnect timer is pending and it is the one the
ref points to; and while the current stream is open no reconnect timer is
pending. -/
def InvC (s : ClientState) : Prop :=
  (s.openStreams = [] ∨ ∃ i, s.openStreams = [i] ∧ s.esRef = some i) ∧
  (s.activeTimers = [] ∨ ∃ t, s.activeTimers = [t] ∧ s.timerRef = some t) ∧
  (currentOpen s = true → s.activeTimers = [])

theorem closeCurrent_openStreams (s : ClientState)
    (h : s.openStreams = [] ∨ ∃ i, s.openStreams = [i] ∧ s.esRef = some i) :
    (closeCurrent s).openStreams = [] := by
  unfold closeCurrent
  rcases h with h | ⟨i, hs, he⟩
  · cases hes : s.esRef with
    | none => exact h
    | some i =>
      show s.openStreams.erase i = []
      rw [h]; rfl
  · rw [he]
    show s.openStreams.erase i = []
    rw [hs]
    exact List.erase_cons_head i []

theorem closeCurrent_activeTimers (s : ClientState) :
    (closeCurrent s).activeTimers = s.activeTimers := by
  unfold closeCurrent; cases s.esRef <;> rfl

theorem closeCurrent_timerRef (s : ClientState) :
    (closeCurrent s).timerRef = s.timerRef := by
  unfold closeCurrent; cases s.esRef <;> rfl

theorem closeCurrent_nextId (s : ClientState) :
    (closeCurrent s).nextId = s.nextId := by
  unfold closeCurrent; cases s.esRef <;> rfl

theorem closeCurrent_retryCount (s : ClientState) :
    (closeCurrent s).retryCount = s.retryCount := by
  unfold closeCurrent; cases s.esRef <;> rfl

theorem closeCurrent_esRef (s : ClientState) :
    (closeCurrent s).esRef = s.esRef := by
  unfold closeCurrent
  cases hes : s.esRef with
  | none => exact hes
  | some i => rfl

theorem clearReconnect_activeTimers (s : ClientState)
    (h : s.activeTimers = [] ∨ ∃ t, s.activeTimers = [t] ∧ s.timerRef = some t) :
    (clearReconnect s).activeTimers = [] := by
  unfold clearReconnect
  rcases h with h | ⟨t, hs, ht⟩
  · cases hts : s.timerRef with
    | none => exact h
    | some u =>
      show s.activeTimers.erase u = []
      rw [h]; rfl
  · rw [ht]
    show s.activeTimers.erase t = []
    rw [hs]
    exact List.erase_cons_head t []

theorem clearReconnect_openStreams (s : ClientState) :
    (clearReconnect s).openStreams = s.openStreams := by
  unfold clearReconnect; cases s.timerRef <;> rfl

theorem clearReconnect_esRef (s : ClientState) :
    (clearReconnect s).esRef = s.esRef := by
  unfold clearReconnect; cases s.timerRef <;> rfl

theorem clearReconnect_nextId (s : ClientState) :
    (clearReconnect s).nextId = s.nextId := by
  unfold clearReconnect; cases s.timerRef <;> rfl

/-- What `connect` does to the resources of a state satisfying the
invariant: the one open stream is closed, the one pending timer is
cancelled, and exactly one fresh stream is opened. -/
theorem connect_resources (s : ClientState) (h : InvC s) :
    (connect s).openStreams = [s.nextId] ∧
    (connect s).esRef = some s.nextId ∧
    (connect s).activeTimers = [] ∧
    (connect s).nextId = s.nextId + 1 ∧
    (connect s).connectionStatus = ConnectionStatus.connecting := by
  obtain ⟨h1, h2, _⟩ := h
  have hos : (closeCurrent s).openStreams = [] := closeCurrent_openStreams s h1
  have hat : (clearReconnect (closeCurrent s)).activeTimers = [] := by
    apply clearReconnect_activeTimers
    rw [closeCurrent_activeTimers, closeCurrent_timerRef]
    exact h2
  have hni : (clearReconnect (closeCurrent s)).nextId = s.nextId := by
    rw [clearReconnect_nextId, closeCurrent_nextId]
  have hop : (clearReconnect (closeCurrent s)).openStreams = [] := by
    rw [clearReconnect_openStreams]; exact hos
  unfold connect openNewStream
  refine ⟨?_, ?_, ?_, ?_, ?_⟩ <;> simp [hni, hop, hat]

/-- `connect` (re-)establishes the invariant from any state satisfying it. -/
theorem connect_inv (s : ClientState) (h : InvC s) : InvC (connect s) := by
  obtain ⟨hs, he, hat, hni, _⟩ := connect_resources s h
  refine ⟨Or.inr ⟨s.nextId, hs, he⟩, Or.inl hat, fun _ => hat⟩

theorem currentOpen_of_no_streams (u : ClientState) (hu : u.openStreams = []) :
    currentOpen u = false := by
  unfold currentOpen
  cases hes : u.esRef with
  | none => rfl
  | some i => rw [hu]; rfl

/-- A state with no open stream satisfies the invariant as soon as its timer
bookkeeping does. -/
theorem invc_closed (u : ClientState) (hos : u.openStreams = [])
    (hts : u.activeTimers = [] ∨ ∃ t, u.activeTimers = [t] ∧ u.timerRef = some t) :
    InvC u := by
  refine ⟨Or.inl hos, hts, fun hcur => ?_⟩
  have hfalse := currentOpen_of_no_streams u hos
  rw [hcur] at hfalse
  exact absurd hfalse (by decide)

theorem stepC_inv (e : CEv) (s : ClientState) (h : InvC s) :
    InvC (stepC e s) := by
  obtain ⟨h1, h2, h3⟩ := h
  cases e with
  | opened =>
    show InvC (if currentOpen s then onOpen s else s)
    split
    · exact ⟨h1, h2, h3⟩
    · exact ⟨h1, h2, h3⟩
  | message p now =>
    show InvC (if currentOpen s then onMessage s p now else s)
    split
    · cases p with
      | some d => exact ⟨h1, h2, h3⟩
      | none => exact ⟨h1, h2, h3⟩
    · exact ⟨h1, h2, h3⟩
  | errored =>
    show InvC (if currentOpen s then onError s else s)
    split
    · rename_i hopen
      have htimers : s.activeTimers = [] := h3 hopen
      have hos : (closeCurrent s).openStreams = [] := closeCurrent_openStreams s h1
      have hat : (closeCurrent s).activeTimers = [] := by
        rw [closeCurrent_activeTimers]; exact htimers
      show InvC (onErrorChecked (closeCurrent s))
      unfold onErrorChecked
      split
      · apply invc_closed
        · exact hos
        · refine Or.inr ⟨(closeCurrent s).nextId, ?_, rfl⟩
          show (closeCurrent s).nextId :: (closeCurrent s).activeTimers
              = [(closeCurrent s).nextId]
          rw [hat]
      · apply invc_closed
        · exact hos
        · exact Or.inl hat
    · exact ⟨h1, h2, h3⟩
  | timerFire =>
    simp only [stepC]
    split
    · rename_i t hts
      split
      · rename_i hmem
        apply connect_inv
        rcases h2 with h2 | ⟨u, hu, hru⟩
        · rw [h2] at hmem
          simp at hmem
        · have htu : t = u := by
            rw [hts] at hru
            exact Option.some.inj hru
          refine ⟨h1, Or.inl ?_, fun _ => ?_⟩
          · show s.activeTimers.erase t = []
            rw [hu, htu]
            exact List.erase_cons_head u []
          · show s.activeTimers.erase t = []
            rw [hu, htu]
            exact List.erase_cons_head u []
      · exact ⟨h1, h2, h3⟩
    · exact ⟨h1, h2, h3⟩
  | manualReconnect =>
    show InvC (connect { s with retryCount := 0 })
    exact connect_inv _ ⟨h1, h2, h3⟩
  | teardown =>
    show InvC (clearReconnect (closeCurrent s))
    have hos : (clearReconnect (closeCurrent s)).openStreams = [] := by
      rw [clearReconnect_openStreams]
      exact closeCurrent_openStreams s h1
    have hat : (clearReconnect (closeCurrent s)).activeTimers = [] := by
      apply clearReconnect_activeTimers
      rw [closeCurrent_activeTimers, closeCurrent_timerRef]
      exact h2
    exact ⟨Or.inl hos, Or.inl hat, fun _ => hat⟩

theorem runC_inv (evs : List CEv) (s : ClientState) (h : InvC s) :
    InvC (runC evs s) := by
  induction evs generalizing s with
  | nil => exact h
  | cons e rest ih => exact ih _ (stepC_inv e s h)

theorem mount_inv : InvC mount :=
  connect_inv initialClient ⟨Or.inl rfl, Or.inl rfl, by simp [currentOpen, initialClient]⟩

/-- C6: in any reachable client session state, at most one stream is open and
at most one reconnect timer is pending; and invoking `connect` there closes
the previous stream and cancels the pending timer before opening exactly one
fresh stream (so duplicates can never accumulate). -/
theorem c6_single_stream_single_timer (evs : List CEv) :
    ((runC evs mount).openStreams.length ≤ 1 ∧
      (runC evs mount).activeTimers.length ≤ 1) ∧
    (connect (runC evs mount)).openStreams = [(runC evs mount).nextId] ∧
    (connect (runC evs mount)).activeTimers = [] := by
  have hinv := runC_inv evs mount mount_inv
  obtain ⟨h1, h2, _⟩ := hinv
  obtain ⟨hcs, _, hca, _, _⟩ := connect_resources _ (runC_inv evs mount mount_inv)
  refine ⟨⟨?_, ?_⟩, hcs, hca⟩
  · rcases h1 with h | ⟨i, hi, _⟩
    · rw [h]; simp
    · rw [hi]; simp
  · rcases h2 with h | ⟨t, ht, _⟩
    · rw [h]; simp
    · rw [ht]; simp

/-! ### Bounded retry -/

/-- One full failed retry round: the stream errors, then the scheduled
reconnect timeout fires (incrementing `retryCount` and reconnecting). -/
def failRound : List CEv := [CEv.errored, CEv.timerFire]

/-- Exactly ten consecutive connection failures with no successful open in
between: the mount attempt and nine automatic retries all error, each
failure but the last followed by its reconnect timeout firing. -/
def tenFailures : List CEv :=
  (List.replicate 9 failRound).flatten ++ [CEv.errored]

/-- Eleven consecutive connection failures with no successful open in
between: the mount attempt and all ten automatic retries error. -/
def elevenFailures : List CEv :=
  (List.replicate 10 failRound).flatten ++ [CEv.errored]

/-- C4 (counterexample): the claim "after exactly maxRetries (10) consecutive
connection failures the state is disconnected" is false on the code.  The
10th failure happens with `retryCount = 9 < 10`, so `onerror` still schedules
a retry and leaves the session `reconnecting`. -/
theorem c4_counterexample :
    (runC tenFailures mount).connectionStatus = ConnectionStatus.reconnecting ∧
    (runC tenFailures mount).connectionStatus ≠ ConnectionStatus.disconnected ∧
    (runC tenFailures mount).retryCount = 9 := by decide

/-- C4 (amended): after eleven consecutive connection failures with no
successful open in between — the attempt made once `retryCount` has reached
10 also fails — the state becomes `disconnected` with the terminal error
`Connection failed after 10 attempts`, and no sequence of further events
that does not contain the manual `reconnect` changes the session state at
all: no further automatic `connect` ever occurs. -/
theorem c4_terminal_after_eleven_failures :
    (runC elevenFailures mount).connectionStatus = ConnectionStatus.disconnected ∧
    (runC elevenFailures mount).error = some "Connection failed after 10 attempts" ∧
    ∀ evs : List CEv, CEv.manualReconnect ∉ evs →
      runC evs (runC elevenFailures mount) = runC elevenFailures mount := by
  refine ⟨by decide, by decide, ?_⟩
  have key : ∀ e : CEv, e ≠ CEv.manualReconnect →
      stepC e (runC elevenFailures mount) = runC elevenFailures mount := by
    intro e he
    cases e with
    | opened => decide
    | message p now =>
      show (if currentOpen (runC elevenFailures mount) then
          onMessage (runC elevenFailures mount) p now
        else runC elevenFailures mount) = runC elevenFailures mount
      rw [show currentOpen (runC elevenFailures mount) = false from by decide]
      rfl
    | errored => decide
    | timerFire => decide
    | manualReconnect => exact absurd rfl he
    | teardown => decide
  intro evs
  induction evs with
  | nil => intro _; rfl
  | cons e rest ih =>
    intro hnot
    have he : e ≠ CEv.manualReconnect := fun hh => hnot (hh ▸ List.mem_cons_self e rest)
    have hr : CEv.manualReconnect ∉ rest := fun hh => hnot (List.mem_cons_of_mem e hh)
    show runC rest (stepC e (runC elevenFailures mount)) = runC elevenFailures mount
    rw [key e he]
    exact ih hr

theorem c4_witness :
    CEv.manualReconnect ∉ [CEv.errored, CEv.timerFire, CEv.teardown] ∧
      runC [CEv.errored, CEv.timerFire, CEv.teardown] (runC elevenFailures mount) =
        runC elevenFailures mount :=
  ⟨by decide, c4_terminal_after_eleven_failures.2.2 _ (by decide)⟩

end EdgeAssistant
